import Mathlib

/-!
# Verification of the adaptive pattern-detection engine

Shallow embedding of `backend/pattern_detection/adaptive_detectors.py` (class
`AdaptivePatternDetector`) together with the parts of
`backend/models/trading_models.py` it uses.  The synthesized Cypher queries are
embedded by their semantics over an explicit graph value: each generated query
text of the source is translated clause by clause into a Lean function on a
`Graph`.  Numeric confidence scores are modelled as exact rationals (the Python
source uses floats for the same arithmetic).  Strings occurring in the data are
assumed ASCII, so UTF-8 bytes coincide with code points.
-/

set_option maxRecDepth 4000

/-! ## Generic string helpers (Python `in`, `sorted`, `str.lower`) -/

/-- Whether the first list starts with the second. -/
def startsWithB : List Char → List Char → Bool
  | _, [] => true
  | [], _ :: _ => false
  | a :: as, b :: bs => a == b && startsWithB as bs

/-- Whether the second list occurs inside the first. -/
def containsSub : List Char → List Char → Bool
  | [], pat => pat.isEmpty
  | a :: as, pat => startsWithB (a :: as) pat || containsSub as pat

/-- Python's substring test `pat in s`. -/
def strContains (s pat : String) : Bool :=
  containsSub s.data pat.data

/-- ASCII lower-casing of one character (Python `str.lower` restricted to the
ASCII strings occurring here). -/
def charToLower (c : Char) : Char :=
  if 65 ≤ c.toNat ∧ c.toNat ≤ 90 then Char.ofNat (c.toNat + 32) else c

/-- Python's `str.lower()` on ASCII strings. -/
def strLower (s : String) : String :=
  String.mk (s.data.map charToLower)

/-- Code-point lexicographic order on character lists, as Python compares
strings. -/
def charListLt : List Char → List Char → Bool
  | [], [] => false
  | [], _ :: _ => true
  | _ :: _, [] => false
  | a :: as, b :: bs =>
    if a.toNat < b.toNat then true
    else if b.toNat < a.toNat then false
    else charListLt as bs

/-- Python's `<` on strings. -/
def strLtB (a b : String) : Bool :=
  charListLt a.data b.data

/-- Insert into an ascending list (helper for `sortStrings`). -/
def insertSorted (x : String) : List String → List String
  | [] => [x]
  | y :: ys => if strLtB x y then x :: y :: ys else y :: insertSorted x ys

/-- Python's `sorted` on a list of strings (ascending; equal strings are
identical so stability is immaterial). -/
def sortStrings : List String → List String
  | [] => []
  | x :: xs => insertSorted x (sortStrings xs)

/-- Fuel-driven helper for `dedupFirst`; fuel `l.length` always suffices since
filtering only shrinks the tail. -/
def dedupFirstAux {α : Type} [BEq α] : Nat → List α → List α
  | 0, _ => []
  | _, [] => []
  | fuel + 1, x :: xs => x :: dedupFirstAux fuel (xs.filter (fun y => y != x))

/-- Keep the first occurrence of each element, dropping later duplicates, as
Cypher `collect(DISTINCT ...)` and Python dict-insertion order do. -/
def dedupFirst {α : Type} [BEq α] (l : List α) : List α :=
  dedupFirstAux l.length l

theorem insertSorted_length (x : String) (l : List String) :
    (insertSorted x l).length = l.length + 1 := by
  induction l with
  | nil => rfl
  | cons y ys ih =>
    simp only [insertSorted]
    split
    · rfl
    · simp [ih]

theorem sortStrings_length (l : List String) :
    (sortStrings l).length = l.length := by
  induction l with
  | nil => rfl
  | cons x xs ih => simp [sortStrings, insertSorted_length, ih]

/-! ## MD5 (`hashlib.md5(...).hexdigest()` of the source)

Implemented over `Nat` with explicit reduction mod `2^32`. -/

/-- Reduce to a 32-bit word. -/
def w32 (n : Nat) : Nat := n % 4294967296

/-- Bitwise complement of a 32-bit word. -/
def wnot (n : Nat) : Nat := 4294967295 - w32 n

/-- Left-rotate a 32-bit word by `s` (for `0 < s < 32`). -/
def rotl32 (x s : Nat) : Nat :=
  w32 (x <<< s) + (w32 x >>> (32 - s))

/-- MD5 round constants `floor(abs(sin(i+1)) * 2^32)`. -/
def md5K : List Nat :=
  [3614090360, 3905402710, 606105819, 3250441966, 4118548399, 1200080426,
   2821735955, 4249261313, 1770035416, 2336552879, 4294925233, 2304563134,
   1804603682, 4254626195, 2792965006, 1236535329, 4129170786, 3225465664,
   643717713, 3921069994, 3593408605, 38016083, 3634488961, 3889429448,
   568446438, 3275163606, 4107603335, 1163531501, 2850285829, 4243563512,
   1735328473, 2368359562, 4294588738, 2272392833, 1839030562, 4259657740,
   2763975236, 1272893353, 4139469664, 3200236656, 681279174, 3936430074,
   3572445317, 76029189, 3654602809, 3873151461, 530742520, 3299628645,
   4096336452, 1126891415, 2878612391, 4237533241, 1700485571, 2399980690,
   4293915773, 2240044497, 1873313359, 4264355552, 2734768916, 1309151649,
   4149444226, 3174756917, 718787259, 3951481745]

/-- MD5 per-round left-rotation amounts. -/
def md5S : List Nat :=
  [7, 12, 17, 22, 7, 12, 17, 22, 7, 12, 17, 22, 7, 12, 17, 22,
   5, 9, 14, 20, 5, 9, 14, 20, 5, 9, 14, 20, 5, 9, 14, 20,
   4, 11, 16, 23, 4, 11, 16, 23, 4, 11, 16, 23, 4, 11, 16, 23,
   6, 10, 15, 21, 6, 10, 15, 21, 6, 10, 15, 21, 6, 10, 15, 21]

/-- One MD5 round on state `(a, b, c, d)` with message words `M`. -/
def md5Round (M : List Nat) (st : Nat × Nat × Nat × Nat) (i : Nat) :
    Nat × Nat × Nat × Nat :=
  let (a, b, c, d) := st
  let f :=
    if i < 16 then (b &&& c) ||| (wnot b &&& d)
    else if i < 32 then (d &&& b) ||| (wnot d &&& c)
    else if i < 48 then b ^^^ c ^^^ d
    else c ^^^ (b ||| wnot d)
  let g :=
    if i < 16 then i
    else if i < 32 then (5 * i + 1) % 16
    else if i < 48 then (3 * i + 5) % 16
    else (7 * i) % 16
  let f2 := w32 (f + a + md5K.getD i 0 + M.getD g 0)
  (d, w32 (b + rotl32 f2 (md5S.getD i 0)), b, c)

/-- Process one 512-bit chunk. -/
def md5Chunk (st : Nat × Nat × Nat × Nat) (M : List Nat) :
    Nat × Nat × Nat × Nat :=
  let (a0, b0, c0, d0) := st
  let (a, b, c, d) := (List.range 64).foldl (md5Round M) st
  (w32 (a0 + a), w32 (b0 + b), w32 (c0 + c), w32 (d0 + d))

/-- Little-endian bytes of `n`, `count` bytes long. -/
def leBytes (n : Nat) : Nat → List Nat
  | 0 => []
  | k + 1 => n % 256 :: leBytes (n / 256) k

/-- Pack bytes into little-endian 32-bit words. -/
def toWords : List Nat → List Nat
  | b0 :: b1 :: b2 :: b3 :: rest =>
    (b0 + b1 * 256 + b2 * 65536 + b3 * 16777216) :: toWords rest
  | _ => []

/-- Fuel-driven helper for `chunks64`; fuel `l.length` always suffices since
dropping 64 strictly shrinks a non-empty list. -/
def chunks64Aux : Nat → List Nat → List (List Nat)
  | 0, _ => []
  | _, [] => []
  | fuel + 1, b :: rest =>
    (b :: rest).take 64 :: chunks64Aux fuel ((b :: rest).drop 64)

/-- Split a byte list into 64-byte chunks. -/
def chunks64 (l : List Nat) : List (List Nat) :=
  chunks64Aux l.length l

/-- MD5 padding: `0x80`, zeros to 56 mod 64, 8 bytes of bit length. -/
def md5Pad (msg : List Nat) : List Nat :=
  msg ++ [128] ++ List.replicate ((119 - msg.length % 64) % 64) 0
      ++ leBytes (msg.length * 8) 8

/-- MD5 of a byte list, as the four 32-bit state words. -/
def md5Words (msg : List Nat) : Nat × Nat × Nat × Nat :=
  (chunks64 (md5Pad msg)).foldl (fun st chunk => md5Chunk st (toWords chunk))
    (1732584193, 4023233417, 2562383102, 271733878)

/-- Lower-case hex digit. -/
def hexDigit (n : Nat) : Char :=
  if n < 10 then Char.ofNat (48 + n) else Char.ofNat (87 + n)

/-- Two-digit lower-case hex of a byte. -/
def byteHex (b : Nat) : String :=
  String.mk [hexDigit (b / 16), hexDigit (b % 16)]

/-- Hex of a 32-bit word, little-endian byte order (as MD5 digests print). -/
def wordHexLE (word : Nat) : String :=
  String.join ((leBytes word 4).map byteHex)

/-- MD5 hex digest of a byte list. -/
def md5HexBytes (msg : List Nat) : String :=
  let (a, b, c, d) := md5Words msg
  wordHexLE a ++ wordHexLE b ++ wordHexLE c ++ wordHexLE d

/-- Bytes of an ASCII string (UTF-8 agrees with code points below 128). -/
def strBytes (s : String) : List Nat :=
  s.data.map Char.toNat

/-- `hashlib.md5(key.encode()).hexdigest()` for an ASCII string. -/
def md5Hex (s : String) : String :=
  md5HexBytes (strBytes s)

/-- Cross-check against the RFC 1321 test vector for "abc". -/
theorem md5Hex_abc : md5Hex "abc" = "900150983cd24fb0d6963f7d28e17f72" := by
  rfl

/-- Cross-check against the RFC 1321 test vector for the empty string. -/
theorem md5Hex_empty : md5Hex "" = "d41d8cd98f00b204e9800998ecf8427e" := by
  rfl

/-! ## Data model (`backend/models/trading_models.py`) -/

/-- `SuspiciousPatternType` enum of `trading_models.py` (note: it has no
`VOLUME_ANOMALY` member). -/
inductive SuspiciousPatternType where
  | SPOOFING
  | LAYERING
  | WASH_TRADING
  | FRONT_RUNNING
deriving DecidableEq, Repr

/-- The string value of each enum member (it is a `str`-valued enum). -/
def SuspiciousPatternType.value : SuspiciousPatternType → String
  | .SPOOFING => "SPOOFING"
  | .LAYERING => "LAYERING"
  | .WASH_TRADING => "WASH_TRADING"
  | .FRONT_RUNNING => "FRONT_RUNNING"

/-- `SuspiciousActivity` of `trading_models.py`.  `confidence_score` is an
exact rational standing for the Python float; `timestamp` is `datetime.now()`
modelled as the abstract detection instant `now : Nat`. -/
structure SuspiciousActivity where
  activity_id : String
  pattern_type : SuspiciousPatternType
  trader_id : String
  account_id : Option String
  instrument : String
  confidence_score : ℚ
  timestamp : Nat
  description : String
  related_trades : List String
  related_orders : List String
  severity : String
deriving DecidableEq, Repr

/-! ## Graph dataset

The Neo4j data the synthesized queries run over, restricted to the shapes the
queries inspect.  Each `Txn` is a node of the primary label `Transaction`:

* `status` / `timestamp` / `secProp` are the values of the resolved status,
  temporal and security-keyword node properties (`none` = property absent);
* `trader` is the id of the `Trader` reached by `-[:PLACED_BY]->` (at most one,
  `none` = no such edge, so the `MATCH` clause skips the node);
* `account` is the id of the `Account` with `-[:PLACED]->` into the node;
* `security` is the `Security` reached by `-[:INVOLVES]->` (at most one);
* `hasConnOut` = `EXISTS { (tx)-[:CONNECTED_TO]->(:Transaction) }` and
  `hasConnIn` = `EXISTS { ()-[:CONNECTED_TO]->(tx) }`;
* `txnId` is the value the query projects as the item identifier (the resolved
  id property, or the internal node id when none resolves). -/
structure Security where
  symbol : Option String
  cusip : Option String
deriving DecidableEq, Repr

structure Txn where
  txnId : String
  status : Option String
  timestamp : Nat
  trader : Option String
  account : Option String
  security : Option Security
  secProp : Option String
  hasConnOut : Bool
  hasConnIn : Bool
deriving DecidableEq, Repr

/-- A non-`Transaction` node, as seen by the volume-anomaly count queries. -/
structure NodeRec where
  label : String
  timestamp : Nat
  nid : String
deriving DecidableEq, Repr

/-- The graph database contents relevant to the detectors. -/
structure Graph where
  txns : List Txn
  nodes : List NodeRec
deriving DecidableEq, Repr

/-- The discovered schema snapshot (`self.schema` of the detector):
`node_properties` maps a label to its property names in catalog order. -/
structure Schema where
  node_labels : List String
  relationship_types : List String
  node_properties : List (String × List String)
deriving DecidableEq, Repr

/-- `self.schema['node_properties'].get(label, {})`. -/
def lookupProps (schema : Schema) (label : String) : List String :=
  match schema.node_properties.find? (fun p => p.1 == label) with
  | some p => p.2
  | none => []

/-- The detection config dict built by `_identify_spoofing_elements` /
`_identify_layering_elements`.  `relationship` is
`entity_connection['relationship']` (target label `Trader` and direction
`outgoing` are fixed by the source and folded into the `Txn.trader` field). -/
structure DetectionConfig where
  primary_node : String
  primary_node_properties : List String
  time_property : Option String
  status_property : Option String
  relationship : String
deriving DecidableEq, Repr

/-- An element of a query row's `related_items`: a scalar identifier or a
nested list (the Python post-processing flattens one level of nesting). -/
inductive Item where
  | str (s : String)
  | lst (xs : List String)
deriving DecidableEq, Repr

/-- A raw query row, with the columns every synthesized detection query
returns.  Rows of queries that omit `cancelled_count` carry `0` there; no
consumer reads the missing key. -/
structure Row where
  entity_id : String
  instrument : String
  total_items : Nat
  cancelled_count : Nat
  related_items : List Item
deriving DecidableEq, Repr

/-! ## Keyword-based property resolution -/

/-- Temporal keywords of `_find_temporal_property`. -/
def timeKeywords : List String :=
  ["timestamp", "time", "date", "created", "updated", "when"]

/-- `_find_temporal_property`: first property (catalog order) whose lower-cased
name contains a temporal keyword. -/
def find_temporal_property (properties : List String) : Option String :=
  properties.find? (fun p => timeKeywords.any (fun k => strContains (strLower p) k))

/-- Status keywords of `_find_status_property`. -/
def statusKeywords : List String :=
  ["status", "state", "condition"]

/-- `_find_status_property`. -/
def find_status_property (properties : List String) : Option String :=
  properties.find? (fun p => statusKeywords.any (fun k => strContains (strLower p) k))

/-- `_find_id_property`: an exact match on id/uuid/guid wins outright,
otherwise the first property containing "id" or "key". -/
def find_id_property (properties : List String) : Option String :=
  match properties.find?
      (fun p => strLower p == "id" || strLower p == "uuid" || strLower p == "guid") with
  | some p => some p
  | none =>
    properties.find?
      (fun p => strContains (strLower p) "id" || strContains (strLower p) "key")

/-- Security-property keywords used by the layering fallbacks. -/
def securityKeywords : List String :=
  ["security", "instrument", "symbol"]

/-- The `security_prop` scan of the layering system-wide fallbacks. -/
def findSecurityProp (properties : List String) : Option String :=
  properties.find? (fun p => securityKeywords.any (fun k => strContains (strLower p) k))

/-- `_identify_spoofing_elements`: fixed primary node `Transaction`, fixed
relationship `PLACED_BY`; fails when `Transaction` has no properties or no
temporal property resolves. -/
def identify_spoofing_elements (schema : Schema) : Option DetectionConfig :=
  let transaction_props := lookupProps schema "Transaction"
  if transaction_props.isEmpty then none
  else
    let config : DetectionConfig :=
      { primary_node := "Transaction"
        primary_node_properties := transaction_props
        time_property := find_temporal_property transaction_props
        status_property := find_status_property transaction_props
        relationship := "PLACED_BY" }
    if config.time_property.isSome then some config else none

/-- `_identify_layering_elements`: same resolution as spoofing (its extra
`connected_to_relationship` entry is the constant `CONNECTED_TO`, which the
query builder hardcodes anyway). -/
def identify_layering_elements (schema : Schema) : Option DetectionConfig :=
  let transaction_props := lookupProps schema "Transaction"
  if transaction_props.isEmpty then none
  else
    let config : DetectionConfig :=
      { primary_node := "Transaction"
        primary_node_properties := transaction_props
        time_property := find_temporal_property transaction_props
        status_property := find_status_property transaction_props
        relationship := "PLACED_BY" }
    if config.time_property.isSome then some config else none

/-! ## Deterministic identifiers (`_generate_deterministic_id`) -/

/-- The colon-joined pattern key `f"{pattern_type}:{trader_id}:{instrument}:{':'.join(items)}"`. -/
def patternKey (pattern_type trader_id instrument : String)
    (items : List String) : String :=
  pattern_type ++ ":" ++ trader_id ++ ":" ++ instrument ++ ":"
    ++ String.intercalate ":" items

/-- `_generate_deterministic_id`: truncate `related_items` to the first 10,
sort, join into the pattern key, and take its MD5 hex digest.  (The
`except` branch falling back to a random UUID is unreachable for the
total operations modelled here.) -/
def generate_deterministic_id (pattern_type trader_id instrument : String)
    (related_items : List String) : String :=
  let limited_items := related_items.take 10
  let related_items_sorted := sortStrings limited_items
  md5Hex (patternKey pattern_type trader_id instrument related_items_sorted)

/-- Modelled from the spec: the spec's words for the identifier hash
`sortedRelatedItems[:10]` -- the related items sorted first and then truncated
to the first 10 -- kept as a separate definition to compare against
`generate_deterministic_id` (which truncates before sorting). -/
def specDeterministicId (pattern_type trader_id instrument : String)
    (related_items : List String) : String :=
  md5Hex (patternKey pattern_type trader_id instrument
    ((sortStrings related_items).take 10))

/-! ## Account enrichment (`_get_account_for_pattern`) -/

/-- `_get_account_for_transaction`: the `Account` with a `PLACED` edge into the
transaction (`LIMIT 1`). -/
def get_account_for_transaction (g : Graph) (transaction_id : String) :
    Option String :=
  match g.txns.find? (fun t => t.txnId == transaction_id) with
  | some t => t.account
  | none => none

/-- Occurrences of `x` in `l` (the dict counter values). -/
def countOcc (l : List String) (x : String) : Nat :=
  (l.filter (fun y => y == x)).length

/-- Python's `max(account_counts, key=account_counts.get)`: first key (dict
insertion order) attaining the maximal count. -/
def maxByCount (keys : List String) (l : List String) : Option String :=
  keys.foldl
    (fun best k =>
      match best with
      | none => some k
      | some b => if countOcc l b < countOcc l k then some k else best)
    none

/-- `_get_account_for_pattern`: sample the first five related transactions and
return the most frequent linked account, if any. -/
def get_account_for_pattern (g : Graph) (related_transactions : List String) :
    Option String :=
  if related_transactions.isEmpty then none
  else
    let sample_transactions := related_transactions.take 5
    let accounts := sample_transactions.filterMap (get_account_for_transaction g)
    if accounts.isEmpty then none
    else maxByCount (dedupFirst accounts) accounts

/-! ## Row post-processing and scoring -/

/-- The cancelled-status regex `'.*(?i)(cancel|abort|reject).*'`: a full match
of `.*X.*` is exactly case-insensitive containment of one alternative. -/
def isCancelledLike (s : String) : Bool :=
  strContains (strLower s) "cancel" || strContains (strLower s) "abort"
    || strContains (strLower s) "reject"

/-- `tx.status IS NOT NULL AND tx.status =~ '.*(?i)(cancel|abort|reject).*'`
(a null property never matches the regex). -/
def statusCancelled : Option String → Bool
  | none => false
  | some s => isCancelledLike s

/-- The Python flattening loop of `detect_spoofing_patterns` /
`detect_layering_patterns`: one level of nested lists is spliced in. -/
def flattenItems : List Item → List String
  | [] => []
  | Item.str s :: rest => s :: flattenItems rest
  | Item.lst xs :: rest => xs ++ flattenItems rest

/-- Python `str` of an item, as interpolated into descriptions (only scalars
occur in synthesized rows; a nested list prints like a Python list). -/
def itemStr : Item → String
  | Item.str s => s
  | Item.lst xs =>
    "[" ++ String.intercalate ", " (xs.map (fun x => "'" ++ x ++ "'")) ++ "]"

/-- `_calculate_spoofing_confidence`.  All synthesized rows carry the
`cancelled_count` / `total_items` keys, so the `in result` guards pass. -/
def calculate_spoofing_confidence (result : Row) : ℚ :=
  let confidence : ℚ := 0.5
  let cancellation_rate : ℚ :=
    (result.cancelled_count : ℚ) / ((max result.total_items 1 : Nat) : ℚ)
  let confidence := confidence + cancellation_rate * 0.4
  let confidence :=
    if 20 ≤ result.total_items then confidence + 0.2
    else if 10 ≤ result.total_items then confidence + 0.1
    else confidence
  min confidence 1.0

/-- `_calculate_layering_confidence`. -/
def calculate_layering_confidence (result : Row) : ℚ :=
  let confidence : ℚ := 0.6
  let confidence :=
    if 10 ≤ result.total_items then confidence + 0.3
    else if 5 ≤ result.total_items then confidence + 0.2
    else if 3 ≤ result.total_items then confidence + 0.1
    else confidence
  let confidence :=
    if result.instrument != "unknown" then confidence + 0.1 else confidence
  let confidence :=
    if result.entity_id != "system_wide" then confidence + 0.1 else confidence
  let confidence :=
    if !result.related_items.isEmpty then
      if 5 ≤ result.related_items.length then confidence + 0.1
      else if 3 ≤ result.related_items.length then confidence + 0.05
      else confidence
    else confidence
  min confidence 1.0

/-- `_determine_severity`. -/
def determine_severity (confidence_score : ℚ) : String :=
  if 0.9 ≤ confidence_score then "CRITICAL"
  else if 0.8 ≤ confidence_score then "HIGH"
  else if 0.7 ≤ confidence_score then "MEDIUM"
  else "LOW"

/-- `_generate_spoofing_description`. -/
def generate_spoofing_description (result : Row) : String :=
  let desc := "Potential spoofing activity detected"
  let total_items := result.total_items
  let cancelled_count := result.cancelled_count
  let executed_count := total_items - cancelled_count
  let desc :=
    if 0 < total_items then
      let d := desc ++ ": " ++ toString total_items ++ " transactions analyzed"
      if 0 < cancelled_count && 0 < executed_count then
        d ++ " (" ++ toString cancelled_count ++ " cancelled, "
          ++ toString executed_count ++ " executed)"
      else if 0 < cancelled_count then
        d ++ " (" ++ toString cancelled_count ++ " cancelled)"
      else if 0 < executed_count then
        d ++ " (" ++ toString executed_count ++ " executed)"
      else d
    else desc
  if result.related_items.isEmpty then desc
  else
    let transaction_ids := result.related_items.take 5
    let ids_str := String.intercalate ", " (transaction_ids.map itemStr)
    let ids_str :=
      if 5 < result.related_items.length then
        ids_str ++ " (+" ++ toString (result.related_items.length - 5) ++ " more)"
      else ids_str
    desc ++ ". Transaction IDs: " ++ ids_str

/-- `_generate_layering_description`. -/
def generate_layering_description (result : Row) : String :=
  let desc := "Potential layering activity detected"
  let total_items := result.total_items
  let desc :=
    if 0 < total_items then
      desc ++ ": " ++ toString total_items ++ " transactions analyzed"
    else desc
  if result.related_items.isEmpty then desc
  else
    let transaction_ids := result.related_items.take 5
    let ids_str := String.intercalate ", " (transaction_ids.map itemStr)
    let ids_str :=
      if 5 < result.related_items.length then
        ids_str ++ " (+" ++ toString (result.related_items.length - 5) ++ " more)"
      else ids_str
    desc ++ ". Transaction IDs: " ++ ids_str

/-! ## Spoofing query semantics (`_build_spoofing_query`)

The builder interpolates the config into a fixed Cypher template.  Each
generated query is embedded clause by clause below. -/

/-- `WHERE t.{time_prop} >= datetime() - duration({hours: $lookback_hours})`:
the in-window transactions, with the cutoff `now - lookback_hours`. -/
def windowTxns (g : Graph) (lookback_hours now : Nat) : List Txn :=
  g.txns.filter (fun t => now - lookback_hours ≤ t.timestamp)

/-- The `CASE` clause extracting `primary_security` from the collected
distinct non-null securities: first security's `symbol`, else its `cusip`,
else `'unknown'`. -/
def primarySecurity (securities : List Security) : String :=
  match securities with
  | [] => "unknown"
  | sec :: _ =>
    match sec.symbol with
    | some s => s
    | none =>
      match sec.cusip with
      | some c => c
      | none => "unknown"

/-- The distinct trader ids of the matched transactions, in match order
(`WITH trader, collect(t)` grouping keys). -/
def traderIds (txs : List Txn) : List String :=
  dedupFirst (txs.filterMap (fun t => t.trader))

/-- The per-trader group body of the spoofing query (everything after
`WITH trader, collect(t) as all_transactions, ...`): requires at least two
transactions, splits on the cancelled regex when a status property resolved
(`hasStatus`), and emits a row only when both the cancelled and the executed
partitions are non-empty; without a status property any group of two or more
is emitted with `cancelled_count = 0`. -/
def spoofingGroupRow (hasStatus : Bool) (tid : String)
    (all_transactions : List Txn) : Option Row :=
  if 2 ≤ all_transactions.length then
    let securities := dedupFirst (all_transactions.filterMap (fun t => t.security))
    let primary_security := primarySecurity securities
    if hasStatus then
      let cancelled_transactions :=
        all_transactions.filter (fun t => statusCancelled t.status)
      let executed_transactions :=
        all_transactions.filter (fun t => !statusCancelled t.status)
      if 0 < cancelled_transactions.length ∧ 0 < executed_transactions.length then
        some { entity_id := tid
               instrument := primary_security
               total_items := all_transactions.length
               cancelled_count := cancelled_transactions.length
               related_items :=
                 (all_transactions.map (fun t => Item.str t.txnId)).take 10 }
      else none
    else
      some { entity_id := tid
             instrument := primary_security
             total_items := all_transactions.length
             cancelled_count := 0
             related_items :=
               (all_transactions.map (fun t => Item.str t.txnId)).take 10 }
  else none

/-- The trader-grouped spoofing query (built when the configured relationship
is exactly `PLACED_BY`): matches `(t:Transaction)-[:PLACED_BY]->(trader)`,
filters the window, groups by trader. -/
def spoofingEntityRows (hasStatus : Bool) (g : Graph) (lookback_hours now : Nat) :
    List Row :=
  let wtxns := (windowTxns g lookback_hours now).filter (fun t => t.trader.isSome)
  (traderIds wtxns).filterMap
    (fun tid => spoofingGroupRow hasStatus tid
      (wtxns.filter (fun t => t.trader == some tid)))

/-- The system-wide spoofing query of the builder's `else` branch (any
configured relationship other than `PLACED_BY`): the relationship is not used
at all; all in-window transactions form one group labelled `system_wide`. -/
def spoofingSystemRows (hasStatus : Bool) (g : Graph) (lookback_hours now : Nat) :
    List Row :=
  (spoofingGroupRow hasStatus "system_wide" (windowTxns g lookback_hours now)).toList

/-- `_build_spoofing_query`, by rows: the trader-grouped shape exists only for
the literal relationship `PLACED_BY` (source line
`if entity_conn and entity_conn['relationship'] == 'PLACED_BY'`). -/
def spoofingQueryRows (relationship : String) (hasStatus : Bool) (g : Graph)
    (lookback_hours now : Nat) : List Row :=
  if relationship == "PLACED_BY" then
    spoofingEntityRows hasStatus g lookback_hours now
  else
    spoofingSystemRows hasStatus g lookback_hours now

/-- The hand-written system-wide fallback query of `detect_spoofing_patterns`
(tier 3): collects only the cancelled in-window transactions and emits a row
whenever there is at least one, with `total_items = cancelled_count`.  When no
status property resolved the interpolated `n.None` is null on every node and
nothing is cancelled. -/
def spoofingSimpleRows (hasStatus : Bool) (g : Graph) (lookback_hours now : Nat) :
    List Row :=
  let cancelled_nodes :=
    (windowTxns g lookback_hours now).filter
      (fun t => hasStatus && statusCancelled t.status)
  if 0 < cancelled_nodes.length then
    [{ entity_id := "system_wide"
       instrument := "unknown"
       total_items := cancelled_nodes.length
       cancelled_count := cancelled_nodes.length
       related_items := (cancelled_nodes.map (fun t => Item.str t.txnId)).take 10 }]
  else []

/-- The fixed alternative-relationship priority list. -/
def alternativeRels : List String :=
  ["PLACED_BY", "EXECUTED_BY", "OWNS", "HAS", "BELONGS_TO"]

/-- First non-empty result list, as the alternative-relationship loop breaks
on the first relationship that yields rows. -/
def firstNonEmptyRows : List (List Row) → Option (List Row)
  | [] => none
  | rs :: rest => if rs.isEmpty then firstNonEmptyRows rest else some rs

/-- The tiered execution of `detect_spoofing_patterns`: the configured query;
then each alternative relationship present in the schema and different from
the configured one, in priority order; then the simple system-wide query. -/
def spoofingTieredRows (schema : Schema) (config : DetectionConfig) (g : Graph)
    (lookback_hours now : Nat) : List Row :=
  let results :=
    spoofingQueryRows config.relationship config.status_property.isSome g
      lookback_hours now
  if results.isEmpty then
    let alternatives := alternativeRels.filter
      (fun r => schema.relationship_types.contains r && r != config.relationship)
    match firstNonEmptyRows (alternatives.map
        (fun r => spoofingQueryRows r config.status_property.isSome g
          lookback_hours now)) with
    | some rs => rs
    | none => spoofingSimpleRows config.status_property.isSome g lookback_hours now
  else results

/-! ## Layering query semantics (`_build_layering_query`) -/

/-- A transaction in a connected chain:
`EXISTS { (tx)-[:CONNECTED_TO]->(:Transaction) } OR EXISTS { ()-[:CONNECTED_TO]->(tx) }`. -/
def txnConnected (t : Txn) : Bool :=
  t.hasConnOut || t.hasConnIn

/-- Stable insertion into a descending-by-`total_items` row list. -/
def insertRowDesc (r : Row) : List Row → List Row
  | [] => [r]
  | x :: xs =>
    if x.total_items < r.total_items then r :: x :: xs else x :: insertRowDesc r xs

/-- `ORDER BY size(...) DESC` over rows. -/
def sortRowsDesc : List Row → List Row
  | [] => []
  | r :: rs => insertRowDesc r (sortRowsDesc rs)

/-- Stable insertion into an ascending-by-timestamp transaction list. -/
def insertTxnAsc (t : Txn) : List Txn → List Txn
  | [] => [t]
  | x :: xs =>
    if t.timestamp < x.timestamp then t :: x :: xs else x :: insertTxnAsc t xs

/-- `ORDER BY t.{time_prop} ASC` over transactions. -/
def sortTxnsAsc : List Txn → List Txn
  | [] => []
  | t :: ts => insertTxnAsc t (sortTxnsAsc ts)

/-- The per-trader group body of the layering query: requires at least three
transactions in the group (`WHERE size(transactions) >= 3`), re-collects them
with securities (`WHERE size(all_transactions) >= 2`), splits into connected
chain members and isolated transactions, requires three of either, and prefers
the connected chain, else the first three isolated transactions. -/
def layeringGroupRow (tid : String) (transactions : List Txn) : Option Row :=
  if 3 ≤ transactions.length then
    if 2 ≤ transactions.length then
      let securities := dedupFirst (transactions.filterMap (fun t => t.security))
      let primary_security := primarySecurity securities
      let connected_chain_txs := transactions.filter txnConnected
      let isolated_txs := transactions.filter (fun t => !txnConnected t)
      if 3 ≤ connected_chain_txs.length ∨ 3 ≤ isolated_txs.length then
        let layering_transactions :=
          if 3 ≤ connected_chain_txs.length then connected_chain_txs
          else isolated_txs.take 3
        some { entity_id := tid
               instrument := primary_security
               total_items := layering_transactions.length
               cancelled_count := 0
               related_items :=
                 (layering_transactions.map (fun t => Item.str t.txnId)).take 10 }
      else none
    else none
  else none

/-- The trader-grouped layering query (relationship exactly `PLACED_BY`),
ordered by group size descending. -/
def layeringEntityRows (g : Graph) (lookback_hours now : Nat) : List Row :=
  let wtxns := (windowTxns g lookback_hours now).filter (fun t => t.trader.isSome)
  sortRowsDesc ((traderIds wtxns).filterMap
    (fun tid => layeringGroupRow tid
      (wtxns.filter (fun t => t.trader == some tid))))

/-- The system-wide layering query of the builder's `else` branch.  With a
security-keyword property on the primary node: one group of all in-window
transactions (at least three), needing either a `CONNECTED_TO`-out transaction
or three unconnected ones.  Without one: the first ten transactions by time,
at least three. -/
def layeringSystemRows (primary_node_properties : List String) (g : Graph)
    (lookback_hours now : Nat) : List Row :=
  let w := windowTxns g lookback_hours now
  match findSecurityProp primary_node_properties with
  | some _ =>
    if 3 ≤ w.length then
      let securities := dedupFirst (w.filterMap (fun t => t.security))
      let primary_security := primarySecurity securities
      let connected_txs := w.filter (fun t => t.hasConnOut)
      let unconnected_txs := w.filter (fun t => !t.hasConnOut)
      if 0 < connected_txs.length ∨ 3 ≤ unconnected_txs.length then
        [{ entity_id := "system_wide"
           instrument := primary_security
           total_items := w.length
           cancelled_count := 0
           related_items := (w.map (fun t => Item.str t.txnId)).take 10 }]
      else []
    else []
  | none =>
    let transactions := (sortTxnsAsc w).take 10
    if 3 ≤ transactions.length then
      [{ entity_id := "system_wide"
         instrument := "unknown"
         total_items := transactions.length
         cancelled_count := 0
         related_items := transactions.map (fun t => Item.str t.txnId) }]
    else []

/-- `_build_layering_query`, by rows: the trader-grouped shape exists only for
the literal relationship `PLACED_BY`. -/
def layeringQueryRows (relationship : String)
    (primary_node_properties : List String) (g : Graph)
    (lookback_hours now : Nat) : List Row :=
  if relationship == "PLACED_BY" then
    layeringEntityRows g lookback_hours now
  else
    layeringSystemRows primary_node_properties g lookback_hours now

/-- Python `str(value)` of an optional property value: a null group key
interpolates as `None` downstream. -/
def optValueStr : Option String → String
  | some s => s
  | none => "None"

/-- The hand-written system-wide fallback queries of
`detect_layering_patterns` (tier 3).  With a security-keyword property: group
the in-window transactions by that property's value, keep groups of at least
three, and return only the largest (`ORDER BY size(items) DESC LIMIT 1`).
Without one: the first three transactions by time, if there are three. -/
def layeringSimpleRows (primary_node_properties : List String) (g : Graph)
    (lookback_hours now : Nat) : List Row :=
  let w := windowTxns g lookback_hours now
  match findSecurityProp primary_node_properties with
  | some _ =>
    let keys := dedupFirst (w.map (fun t => t.secProp))
    let rows := keys.filterMap (fun k =>
      let items := w.filter (fun t => t.secProp == k)
      if 3 ≤ items.length then
        some { entity_id := "system_wide"
               instrument := optValueStr k
               total_items := items.length
               cancelled_count := 0
               related_items := (items.map (fun t => Item.str t.txnId)).take 10 }
      else none)
    (sortRowsDesc rows).take 1
  | none =>
    let first_transactions := (sortTxnsAsc w).take 3
    if 3 ≤ first_transactions.length then
      [{ entity_id := "system_wide"
         instrument := "unknown"
         total_items := first_transactions.length
         cancelled_count := 0
         related_items := first_transactions.map (fun t => Item.str t.txnId) }]
    else []

/-- The tiered execution of `detect_layering_patterns`, mirroring the
spoofing tiers. -/
def layeringTieredRows (schema : Schema) (config : DetectionConfig) (g : Graph)
    (lookback_hours now : Nat) : List Row :=
  let results :=
    layeringQueryRows config.relationship config.primary_node_properties g
      lookback_hours now
  if results.isEmpty then
    let alternatives := alternativeRels.filter
      (fun r => schema.relationship_types.contains r && r != config.relationship)
    match firstNonEmptyRows (alternatives.map
        (fun r => layeringQueryRows r config.primary_node_properties g
          lookback_hours now)) with
    | some rs => rs
    | none =>
      layeringSimpleRows config.primary_node_properties g lookback_hours now
  else results

/-! ## Turning rows into findings -/

/-- The per-row body of the result loop of `detect_spoofing_patterns`:
score the row, keep it when the score reaches the 0.4 floor, flatten the
related items (re-querying the cancelled ids when the flattened list is
empty), and build the `SuspiciousActivity`. -/
def spoofingRowToActivity (g : Graph) (config : DetectionConfig)
    (lookback_hours now : Nat) (result : Row) : Option SuspiciousActivity :=
  let confidence_score := calculate_spoofing_confidence result
  if 0.4 ≤ confidence_score then
    let flattened_items := flattenItems result.related_items
    let fallback_ids :=
      (((windowTxns g lookback_hours now).filter
        (fun t => config.status_property.isSome && statusCancelled t.status)).map
          (fun t => t.txnId)).take 10
    let flattened_items :=
      if flattened_items.isEmpty then
        if fallback_ids.isEmpty then flattened_items else fallback_ids
      else flattened_items
    let trader_id := result.entity_id
    let instrument := if result.instrument == "" then "unknown" else result.instrument
    some { activity_id :=
             generate_deterministic_id "SPOOFING" trader_id instrument flattened_items
           pattern_type := SuspiciousPatternType.SPOOFING
           trader_id := trader_id
           account_id := get_account_for_pattern g flattened_items
           instrument := instrument
           confidence_score := confidence_score
           timestamp := now
           description := generate_spoofing_description result
           related_trades := flattened_items
           related_orders := []
           severity := determine_severity confidence_score }
  else none

/-- The per-row body of the result loop of `detect_layering_patterns`. -/
def layeringRowToActivity (g : Graph) (now : Nat) (result : Row) :
    Option SuspiciousActivity :=
  let confidence_score := calculate_layering_confidence result
  if 0.4 ≤ confidence_score then
    let flattened_items := flattenItems result.related_items
    let trader_id := result.entity_id
    let instrument := result.instrument
    some { activity_id :=
             generate_deterministic_id "LAYERING" trader_id instrument flattened_items
           pattern_type := SuspiciousPatternType.LAYERING
           trader_id := trader_id
           account_id := get_account_for_pattern g flattened_items
           instrument := instrument
           confidence_score := confidence_score
           timestamp := now
           description := generate_layering_description result
           related_trades := flattened_items
           related_orders := []
           severity := determine_severity confidence_score }
  else none

/-- `detect_spoofing_patterns`: resolve the config (empty result when that
fails), run the tiered queries, convert rows to findings. -/
def detect_spoofing_patterns (schema : Schema) (g : Graph)
    (lookback_hours now : Nat) : List SuspiciousActivity :=
  match identify_spoofing_elements schema with
  | none => []
  | some config =>
    (spoofingTieredRows schema config g lookback_hours now).filterMap
      (spoofingRowToActivity g config lookback_hours now)

/-- `detect_layering_patterns`. -/
def detect_layering_patterns (schema : Schema) (g : Graph)
    (lookback_hours now : Nat) : List SuspiciousActivity :=
  match identify_layering_elements schema with
  | none => []
  | some config =>
    (layeringTieredRows schema config g lookback_hours now).filterMap
      (layeringRowToActivity g now)

/-! ## Volume anomalies (`_detect_volume_anomalies`) -/

/-- The per-label body of `_detect_volume_anomalies`: labels without a
temporal property are skipped; the count query keeps a row when
`recent_count > total_count * 0.3 AND recent_count > 5`; the loop then demands
`recent_count > 50` and skips `Transaction`-like labels; surviving labels
yield a fixed-shape finding (`pattern_type` LAYERING, confidence 0.6, severity
MEDIUM, id hashed under the family name VOLUME_ANOMALY). -/
def volumeActivitiesFor (schema : Schema) (g : Graph) (lookback_hours now : Nat)
    (label : String) : List SuspiciousActivity :=
  let props := lookupProps schema label
  match find_temporal_property props with
  | none => []
  | some _ =>
    let labelNodes := g.nodes.filter (fun n => n.label == label)
    let recent_count :=
      (labelNodes.filter (fun n => now - lookback_hours ≤ n.timestamp)).length
    let total_count := labelNodes.length
    if (total_count : ℚ) * 0.3 < (recent_count : ℚ) ∧ 5 < recent_count then
      if 50 < recent_count then
        if label == "Transaction" || strContains (strLower label) "transaction" then
          []
        else
          let related_transactions : List String := []
          [{ activity_id :=
               generate_deterministic_id "VOLUME_ANOMALY" "system_wide" label
                 related_transactions
             pattern_type := SuspiciousPatternType.LAYERING
             trader_id := "system_wide"
             account_id := get_account_for_pattern g related_transactions
             instrument := label
             confidence_score := 0.6
             timestamp := now
             description :=
               "High volume anomaly: " ++ toString recent_count ++ " " ++ label
                 ++ " records in last " ++ toString lookback_hours ++ " hours"
             related_trades := related_transactions
             related_orders := []
             severity := "MEDIUM" }]
      else []
    else []

/-- `_detect_volume_anomalies` over every discovered label. -/
def detect_volume_anomalies (schema : Schema) (g : Graph)
    (lookback_hours now : Nat) : List SuspiciousActivity :=
  schema.node_labels.flatMap (volumeActivitiesFor schema g lookback_hours now)

/-- `detect_unusual_patterns` (`_detect_time_anomalies` returns `[]`). -/
def detect_unusual_patterns (schema : Schema) (g : Graph)
    (lookback_hours now : Nat) : List SuspiciousActivity :=
  detect_volume_anomalies schema g lookback_hours now ++ []

/-- `detect_all_patterns`: the three families, aggregated in order. -/
def detect_all_patterns (schema : Schema) (g : Graph)
    (lookback_hours now : Nat) : List SuspiciousActivity :=
  detect_spoofing_patterns schema g lookback_hours now
    ++ detect_layering_patterns schema g lookback_hours now
    ++ detect_unusual_patterns schema g lookback_hours now

/-! ## Concrete example data for counterexamples and witnesses -/

/-- Schema with only the configured `PLACED_BY` relationship. -/
def exSchema1 : Schema :=
  { node_labels := ["Transaction", "Trader", "Security"]
    relationship_types := ["PLACED_BY", "INVOLVES"]
    node_properties :=
      [("Transaction", ["transaction_id", "timestamp", "status"]),
       ("Trader", ["trader_id"]),
       ("Security", ["symbol", "cusip"])] }

/-- Two in-window transactions of trader `T1`, both cancelled. -/
def exGraph1 : Graph :=
  { txns :=
      [{ txnId := "TX1", status := some "CANCELLED", timestamp := 900,
         trader := some "T1", account := some "ACC1", security := none,
         secProp := none, hasConnOut := false, hasConnIn := false },
       { txnId := "TX2", status := some "CANCELLED", timestamp := 901,
         trader := some "T1", account := some "ACC1", security := none,
         secProp := none, hasConnOut := false, hasConnIn := false }]
    nodes := [] }

/-- Schema where the alternate `EXECUTED_BY` also exists. -/
def exSchema3 : Schema :=
  { node_labels := ["Transaction", "Trader"]
    relationship_types := ["PLACED_BY", "EXECUTED_BY"]
    node_properties :=
      [("Transaction", ["transaction_id", "timestamp", "status"]),
       ("Trader", ["trader_id"])] }

/-- Two in-window transactions with no `PLACED_BY` edge at all: one
cancelled, one filled. -/
def exGraph3 : Graph :=
  { txns :=
      [{ txnId := "TX3", status := some "CANCELLED", timestamp := 900,
         trader := none, account := none, security := none,
         secProp := none, hasConnOut := false, hasConnIn := false },
       { txnId := "TX4", status := some "FILLED", timestamp := 901,
         trader := none, account := none, security := none,
         secProp := none, hasConnOut := false, hasConnIn := false }]
    nodes := [] }

/-- Schema whose only label is the non-transaction `Order` with a temporal
property. -/
def exSchema10 : Schema :=
  { node_labels := ["Order"]
    relationship_types := []
    node_properties := [("Order", ["created_at", "order_id"])] }

/-- 51 in-window `Order` nodes (past the `> 50` volume threshold). -/
def exGraph10 : Graph :=
  { txns := []
    nodes := (List.range 51).map
      (fun i => { label := "Order", timestamp := 900, nid := "N" ++ toString i }) }

/-- Eleven related items on which truncate-then-sort and sort-then-truncate
disagree: the code hashes `a..i,z`, the spec's words hash `a..j`. -/
def exItems11 : List String :=
  ["z", "a", "b", "c", "d", "e", "f", "g", "h", "i", "j"]

/-- A four-transaction trader group, three of them in a connected chain. -/
def exGroup8 : List Txn :=
  [{ txnId := "TX5", status := none, timestamp := 900, trader := some "T2",
     account := none, security := none, secProp := none,
     hasConnOut := true, hasConnIn := false },
   { txnId := "TX6", status := none, timestamp := 901, trader := some "T2",
     account := none, security := none, secProp := none,
     hasConnOut := true, hasConnIn := true },
   { txnId := "TX7", status := none, timestamp := 902, trader := some "T2",
     account := none, security := none, secProp := none,
     hasConnOut := false, hasConnIn := true },
   { txnId := "TX8", status := none, timestamp := 903, trader := some "T2",
     account := none, security := none, secProp := none,
     hasConnOut := false, hasConnIn := false }]

/-- A default activity value (for `headD`). -/
def defaultActivity : SuspiciousActivity :=
  { activity_id := "", pattern_type := SuspiciousPatternType.SPOOFING,
    trader_id := "", account_id := none, instrument := "",
    confidence_score := 0, timestamp := 0, description := "",
    related_trades := [], related_orders := [], severity := "" }

/-- A default row value (for `headD`). -/
def defaultRow : Row :=
  { entity_id := "", instrument := "", total_items := 0, cancelled_count := 0,
    related_items := [] }

/-! ## Helper lemmas -/

theorem flattenItems_map_str (f : Txn → String) (l : List Txn) :
    flattenItems (l.map (fun t => Item.str (f t))) = l.map f := by
  induction l with
  | nil => rfl
  | cons t ts ih => simp [flattenItems, ih]

theorem flatten_take10_length_le (f : Txn → String) (l : List Txn) :
    (flattenItems ((l.map (fun t => Item.str (f t))).take 10)).length ≤ 10 := by
  rw [← List.map_take, flattenItems_map_str, List.length_map]
  exact List.length_take_le 10 l

theorem filter_not_eq_nil_of_all {α : Type} {p : α → Bool} {l : List α}
    (h : l.all p = true) : l.filter (fun a => !p a) = [] := by
  rw [List.filter_eq_nil_iff]
  intro a ha
  simp [List.all_eq_true.mp h a ha]

theorem filter_eq_nil_of_all_not {α : Type} {p : α → Bool} {l : List α}
    (h : l.all (fun a => !p a) = true) : l.filter p = [] := by
  rw [List.filter_eq_nil_iff]
  intro a ha
  have := List.all_eq_true.mp h a ha
  simp at this
  simp [this]

theorem firstNonEmptyRows_mem {L : List (List Row)} {rs : List Row}
    (h : firstNonEmptyRows L = some rs) : rs ∈ L := by
  induction L with
  | nil => exact Option.noConfusion h
  | cons x xs ih =>
    simp only [firstNonEmptyRows] at h
    split at h
    · exact List.mem_cons_of_mem _ (ih h)
    · cases h; exact List.mem_cons_self _ _

theorem mem_insertRowDesc {x r : Row} {l : List Row} :
    x ∈ insertRowDesc r l → x = r ∨ x ∈ l := by
  induction l with
  | nil => intro h; simp [insertRowDesc] at h; exact Or.inl h
  | cons y ys ih =>
    intro h
    simp only [insertRowDesc] at h
    split at h
    · exact List.mem_cons.mp h
    · rcases List.mem_cons.mp h with h' | h'
      · exact Or.inr (List.mem_cons.mpr (Or.inl h'))
      · rcases ih h' with h'' | h''
        · exact Or.inl h''
        · exact Or.inr (List.mem_cons.mpr (Or.inr h''))

theorem mem_sortRowsDesc {x : Row} {l : List Row} :
    x ∈ sortRowsDesc l → x ∈ l := by
  induction l with
  | nil => intro h; exact absurd h (List.not_mem_nil x)
  | cons r rs ih =>
    intro h
    rcases mem_insertRowDesc h with h' | h'
    · exact h' ▸ List.mem_cons_self r rs
    · exact List.mem_cons_of_mem _ (ih h')

theorem spoofing_confidence_ge (r : Row) :
    0.5 ≤ calculate_spoofing_confidence r := by
  simp only [calculate_spoofing_confidence]
  have hrate : (0 : ℚ) ≤ (r.cancelled_count : ℚ) / ((max r.total_items 1 : Nat) : ℚ) := by
    positivity
  split
  · refine le_min (by linarith) (by norm_num)
  · split
    · refine le_min (by linarith) (by norm_num)
    · refine le_min (by linarith) (by norm_num)

theorem layering_confidence_ge (r : Row) :
    0.6 ≤ calculate_layering_confidence r := by
  simp only [calculate_layering_confidence]
  refine le_min ?_ (by norm_num)
  split_ifs <;> norm_num

/-! ## Claim theorems -/

/-- C7: the spoofing confidence score equals
`0.5 + 0.4 * (cancelledCount / max(totalCount, 1))`, plus `0.2` when
`totalCount >= 20` else plus `0.1` when `totalCount >= 10`, clamped to
`[0, 1]`; a group of 5 transactions with 3 cancelled scores exactly `0.74`
and maps to severity `MEDIUM`. -/
theorem C7_spoofing_confidence_formula :
    (∀ r : Row,
      calculate_spoofing_confidence r =
        min (0.5
          + 0.4 * ((r.cancelled_count : ℚ) / ((max r.total_items 1 : Nat) : ℚ))
          + (if 20 ≤ r.total_items then 0.2
             else if 10 ≤ r.total_items then 0.1 else 0)) 1
      ∧ 0 ≤ calculate_spoofing_confidence r
      ∧ calculate_spoofing_confidence r ≤ 1)
    ∧ calculate_spoofing_confidence
        { entity_id := "T1", instrument := "ACME", total_items := 5,
          cancelled_count := 3, related_items := [] } = 0.74
    ∧ determine_severity 0.74 = "MEDIUM" := by
  refine ⟨fun r => ⟨?_, ?_, ?_⟩,
    by norm_num [calculate_spoofing_confidence, min_def],
    by norm_num [determine_severity]⟩
  · simp only [calculate_spoofing_confidence]
    rw [show (1.0 : ℚ) = 1 from by norm_num]
    split_ifs <;> (congr 1; ring)
  · simp only [calculate_spoofing_confidence]
    have hrate :
        (0 : ℚ) ≤ (r.cancelled_count : ℚ) / ((max r.total_items 1 : Nat) : ℚ) * 0.4 := by
      positivity
    refine le_min ?_ (by norm_num)
    split_ifs <;> linarith
  · simp only [calculate_spoofing_confidence]
    exact le_trans (min_le_right _ _) (by norm_num)

/-- C9 (implicit): the per-family acceptance floor of 0.4 is vacuous — every
spoofing confidence is at least 0.5 and every layering confidence at least
0.6, so the `confidence_score >= 0.4` filter never drops a query row: each
row-to-activity conversion always produces a finding. -/
theorem C9_acceptance_floor_vacuous :
    ∀ (r : Row) (g : Graph) (config : DetectionConfig) (lookback_hours now : Nat),
      0.5 ≤ calculate_spoofing_confidence r
      ∧ 0.6 ≤ calculate_layering_confidence r
      ∧ (spoofingRowToActivity g config lookback_hours now r).isSome = true
      ∧ (layeringRowToActivity g now r).isSome = true := by
  intro r g config lookback_hours now
  have hs := spoofing_confidence_ge r
  have hl := layering_confidence_ge r
  refine ⟨hs, hl, ?_, ?_⟩
  · simp only [spoofingRowToActivity]
    rw [if_pos (by linarith : (0.4 : ℚ) ≤ calculate_spoofing_confidence r)]
    rfl
  · simp only [layeringRowToActivity]
    rw [if_pos (by linarith : (0.4 : ℚ) ≤ calculate_layering_confidence r)]
    rfl

/-- C6: when no property of the chosen primary entity type (`Transaction`)
contains a temporal keyword (lower-cased), config resolution returns `none`
for both spoofing and layering, and each family's detect call returns the
empty list (totally, hence without raising). -/
theorem C6_no_temporal_property_empty :
    ∀ (schema : Schema) (g : Graph) (lookback_hours now : Nat),
      (lookupProps schema "Transaction").all
        (fun p => timeKeywords.all (fun k => !strContains (strLower p) k)) = true →
      identify_spoofing_elements schema = none
      ∧ identify_layering_elements schema = none
      ∧ detect_spoofing_patterns schema g lookback_hours now = []
      ∧ detect_layering_patterns schema g lookback_hours now = [] := by
  intro schema g lookback_hours now h
  have hfind : find_temporal_property (lookupProps schema "Transaction") = none := by
    rw [find_temporal_property, List.find?_eq_none]
    intro p hp
    have hall := List.all_eq_true.mp (List.all_eq_true.mp h p hp)
    simp only [List.any_eq_true, not_exists, not_and]
    intro k hk
    have := hall k hk
    simp at this
    simp [this]
  have hid : identify_spoofing_elements schema = none := by
    simp only [identify_spoofing_elements, hfind]
    split <;> simp
  have hid2 : identify_layering_elements schema = none := by
    simp only [identify_layering_elements, hfind]
    split <;> simp
  refine ⟨hid, hid2, ?_, ?_⟩
  · simp [detect_spoofing_patterns, hid]
  · simp [detect_layering_patterns, hid2]

/-- Schema for the C6 witness: `Transaction` exists but has no
temporal-keyword property. -/
def exSchema6 : Schema :=
  { node_labels := ["Transaction"]
    relationship_types := ["PLACED_BY"]
    node_properties := [("Transaction", ["status", "qty"])] }

/-- Empty graph. -/
def exGraphEmpty : Graph :=
  { txns := [], nodes := [] }

/-- Witness for C6 at a concrete schema without temporal properties. -/
theorem C6_no_temporal_property_empty_witness :
    identify_spoofing_elements exSchema6 = none
    ∧ identify_layering_elements exSchema6 = none
    ∧ detect_spoofing_patterns exSchema6 exGraphEmpty 168 1000 = []
    ∧ detect_layering_patterns exSchema6 exGraphEmpty 168 1000 = [] :=
  C6_no_temporal_property_empty exSchema6 exGraphEmpty 168 1000 (by decide)

/-- C2 counterexample: on eleven related items the identifier is NOT the hash
of the sorted-then-truncated items — the code truncates to the first ten and
then sorts, which hashes a different item subset. -/
theorem C2_counterexample :
    generate_deterministic_id "SPOOFING" "T1" "AAPL" exItems11
      ≠ specDeterministicId "SPOOFING" "T1" "AAPL" exItems11 := by
  decide

/-- C2 (amended): the activity identifier is the content hash of
`(familyName, entityId, instrument, sorted(relatedItems[:10]))` — the related
items truncated to the first ten and then sorted — a pure deterministic
function of its inputs; for item lists of at most ten entries this coincides
with the spec's sort-then-truncate order. -/
theorem C2_deterministic_id :
    ∀ (pattern_type trader_id instrument : String) (related_items : List String),
      generate_deterministic_id pattern_type trader_id instrument related_items
        = md5Hex (patternKey pattern_type trader_id instrument
            (sortStrings (related_items.take 10)))
      ∧ (related_items.length ≤ 10 →
          generate_deterministic_id pattern_type trader_id instrument related_items
            = specDeterministicId pattern_type trader_id instrument related_items) := by
  intro pattern_type trader_id instrument related_items
  refine ⟨rfl, fun h => ?_⟩
  simp only [generate_deterministic_id, specDeterministicId]
  rw [List.take_of_length_le h,
    List.take_of_length_le (by rw [sortStrings_length]; exact h)]

/-- Witness for C2 at a concrete two-item input. -/
theorem C2_deterministic_id_witness :
    (["b", "a"] : List String).length ≤ 10
    ∧ generate_deterministic_id "SPOOFING" "T9" "MSFT" ["b", "a"]
        = specDeterministicId "SPOOFING" "T9" "MSFT" ["b", "a"] :=
  ⟨by decide, (C2_deterministic_id "SPOOFING" "T9" "MSFT" ["b", "a"]).2 (by decide)⟩

/-- C1 counterexample: a dataset whose transactions are ALL cancelled-like
still produces a spoofing finding — the tier-3 system-wide fallback query only
requires at least one cancelled transaction. -/
theorem C1_counterexample :
    (detect_spoofing_patterns exSchema1 exGraph1 168 1000).isEmpty = false
    ∧ exGraph1.txns.all (fun t => statusCancelled t.status) = true := by
  constructor
  · with_unfolding_all decide
  · decide

/-- C1 (amended): with a status property configured, the synthesized
entity-grouped query (used for the configured tier, and — with entity id
`system_wide` — for the alternate-relationship tier) emits no row for a group
whose items are all cancelled-like, nor for a group whose items are all
non-cancelled; the final hand-written system-wide fallback tier, however,
emits a row whenever at least one in-window item is cancelled-like, even when
every item is cancelled. -/
theorem C1_spoofing_emission :
    (∀ (tid : String) (txs : List Txn),
      (txs.all (fun t => statusCancelled t.status) = true →
        spoofingGroupRow true tid txs = none)
      ∧ (txs.all (fun t => !statusCancelled t.status) = true →
        spoofingGroupRow true tid txs = none))
    ∧ (∀ (g : Graph) (lookback_hours now : Nat),
        0 < ((windowTxns g lookback_hours now).filter
          (fun t => statusCancelled t.status)).length →
        spoofingSimpleRows true g lookback_hours now ≠ []) := by
  constructor
  · intro tid txs
    constructor
    · intro h
      have hexec : txs.filter (fun t => !statusCancelled t.status) = [] :=
        filter_not_eq_nil_of_all h
      simp only [spoofingGroupRow]
      split
      · rw [if_pos trivial, hexec]
        simp
      · rfl
    · intro h
      have hcanc : txs.filter (fun t => statusCancelled t.status) = [] :=
        filter_eq_nil_of_all_not h
      simp only [spoofingGroupRow]
      split
      · rw [if_pos trivial, hcanc]
        simp
      · rfl
  · intro g lookback_hours now h
    simp only [spoofingSimpleRows, Bool.true_and]
    rw [if_pos h]
    simp

/-- Witness for C1's amended statement at concrete inputs: the all-cancelled
trader group of `exGraph1` yields no row from the entity-grouped query, yet
the system-wide fallback yields one. -/
theorem C1_spoofing_emission_witness :
    (exGraph1.txns.all (fun t => statusCancelled t.status) = true
      ∧ spoofingGroupRow true "T1" exGraph1.txns = none)
    ∧ (0 < ((windowTxns exGraph1 168 1000).filter
          (fun t => statusCancelled t.status)).length
      ∧ spoofingSimpleRows true exGraph1 168 1000 ≠ []) :=
  ⟨⟨by decide, (C1_spoofing_emission.1 "T1" exGraph1.txns).1 (by decide)⟩,
   ⟨by decide, C1_spoofing_emission.2 exGraph1 168 1000 (by decide)⟩⟩

/-- C3 counterexample: the configured `PLACED_BY` query yields no rows, the
alternate `EXECUTED_BY` exists in the schema and yields rows — but the
resulting finding's entity id is the literal `system_wide`, not a concrete
trader id, because the query builder only produces the trader-grouped query
for the exact relationship `PLACED_BY`. -/
theorem C3_counterexample :
    spoofingQueryRows "PLACED_BY" true exGraph3 168 1000 = []
    ∧ exSchema3.relationship_types.contains "EXECUTED_BY" = true
    ∧ (spoofingQueryRows "EXECUTED_BY" true exGraph3 168 1000).isEmpty = false
    ∧ (detect_spoofing_patterns exSchema3 exGraph3 168 1000).map
        (fun a => a.trader_id) = ["system_wide"] := by
  refine ⟨by decide, by decide, by decide, ?_⟩
  with_unfolding_all decide

theorem spoofingGroupRow_entity {hasStatus : Bool} {tid : String}
    {txs : List Txn} {row : Row}
    (h : spoofingGroupRow hasStatus tid txs = some row) :
    row.entity_id = tid := by
  simp only [spoofingGroupRow] at h
  split at h
  · split at h
    · split at h
      · cases h; rfl
      · exact Option.noConfusion h
    · cases h; rfl
  · exact Option.noConfusion h

/-- C3 (amended): whenever rows are produced under any relationship other
than the literal `PLACED_BY` — in particular under every alternate
relationship of the priority list — their entity id is `system_wide`. -/
theorem C3_alternate_entity_system_wide :
    ∀ (relationship : String) (hasStatus : Bool) (g : Graph)
      (lookback_hours now : Nat) (row : Row),
      relationship ≠ "PLACED_BY" →
      row ∈ spoofingQueryRows relationship hasStatus g lookback_hours now →
      row.entity_id = "system_wide" := by
  intro relationship hasStatus g lookback_hours now row hne hmem
  simp only [spoofingQueryRows] at hmem
  rw [if_neg (by simp [hne])] at hmem
  simp only [spoofingSystemRows, Option.mem_toList, Option.mem_def] at hmem
  exact spoofingGroupRow_entity hmem

/-- The first row the alternate `EXECUTED_BY` query returns on `exGraph3`. -/
def exRow3 : Row :=
  (spoofingQueryRows "EXECUTED_BY" true exGraph3 168 1000).headD defaultRow

/-- Witness for C3's amended statement at the concrete alternate
relationship. -/
theorem C3_alternate_entity_system_wide_witness :
    exRow3.entity_id = "system_wide" :=
  C3_alternate_entity_system_wide "EXECUTED_BY" true exGraph3 168 1000 exRow3
    (by decide) (by decide)

theorem spoofingRowToActivity_severity {g : Graph} {config : DetectionConfig}
    {lookback_hours now : Nat} {r : Row} {a : SuspiciousActivity}
    (h : spoofingRowToActivity g config lookback_hours now r = some a) :
    a.severity = determine_severity a.confidence_score := by
  simp only [spoofingRowToActivity] at h
  split at h
  · cases h; rfl
  · exact Option.noConfusion h

theorem layeringRowToActivity_severity {g : Graph} {now : Nat} {r : Row}
    {a : SuspiciousActivity}
    (h : layeringRowToActivity g now r = some a) :
    a.severity = determine_severity a.confidence_score := by
  simp only [layeringRowToActivity] at h
  split at h
  · cases h; rfl
  · exact Option.noConfusion h

theorem volumeActivitiesFor_spec {schema : Schema} {g : Graph}
    {lookback_hours now : Nat} {label : String} {a : SuspiciousActivity}
    (h : a ∈ volumeActivitiesFor schema g lookback_hours now label) :
    a.pattern_type = SuspiciousPatternType.LAYERING
    ∧ a.confidence_score = 0.6
    ∧ a.severity = "MEDIUM"
    ∧ a.trader_id = "system_wide"
    ∧ a.instrument = label
    ∧ a.related_trades = []
    ∧ a.activity_id =
        generate_deterministic_id "VOLUME_ANOMALY" "system_wide" label []
    ∧ (label == "Transaction" || strContains (strLower label) "transaction")
        = false := by
  simp only [volumeActivitiesFor] at h
  split at h
  · exact absurd h (List.not_mem_nil a)
  · split at h
    · split at h
      · split at h
        · exact absurd h (List.not_mem_nil a)
        · rw [List.mem_singleton] at h
          subst h
          refine ⟨rfl, rfl, rfl, rfl, rfl, rfl, rfl, ?_⟩
          simp_all
      · exact absurd h (List.not_mem_nil a)
    · exact absurd h (List.not_mem_nil a)

/-- C4 counterexample: a concrete volume-anomaly finding carries severity
`MEDIUM` although the fixed bands map its confidence score 0.6 to `LOW`. -/
theorem C4_counterexample :
    (detect_volume_anomalies exSchema10 exGraph10 168 1000).all
      (fun a => a.severity == determine_severity a.confidence_score) = false := by
  with_unfolding_all decide

/-- C4 (amended): spoofing and layering findings derive their severity from
the confidence score by the fixed bands `>= 0.9 CRITICAL, >= 0.8 HIGH,
>= 0.7 MEDIUM, else LOW`; volume-anomaly findings instead carry the fixed
severity `MEDIUM` with confidence 0.6, although the bands map 0.6 to `LOW`. -/
theorem C4_severity_bands :
    ∀ (schema : Schema) (g : Graph) (lookback_hours now : Nat)
      (a : SuspiciousActivity),
      ((a ∈ detect_spoofing_patterns schema g lookback_hours now
         ∨ a ∈ detect_layering_patterns schema g lookback_hours now) →
        a.severity = determine_severity a.confidence_score)
      ∧ (a ∈ detect_volume_anomalies schema g lookback_hours now →
          a.severity = "MEDIUM" ∧ a.confidence_score = 0.6
            ∧ determine_severity a.confidence_score = "LOW") := by
  intro schema g lookback_hours now a
  constructor
  · rintro (h | h)
    · rw [detect_spoofing_patterns] at h
      split at h
      · exact absurd h (List.not_mem_nil a)
      · rw [List.mem_filterMap] at h
        obtain ⟨r, _, hr⟩ := h
        exact spoofingRowToActivity_severity hr
    · rw [detect_layering_patterns] at h
      split at h
      · exact absurd h (List.not_mem_nil a)
      · rw [List.mem_filterMap] at h
        obtain ⟨r, _, hr⟩ := h
        exact layeringRowToActivity_severity hr
  · intro h
    rw [detect_volume_anomalies, List.mem_flatMap] at h
    obtain ⟨label, _, hmem⟩ := h
    obtain ⟨-, hconf, hsev, -⟩ := volumeActivitiesFor_spec hmem
    refine ⟨hsev, hconf, ?_⟩
    rw [hconf]
    norm_num [determine_severity]

/-- The finding the spoofing detector produces on `exGraph1`. -/
def exSpoofActivity : SuspiciousActivity :=
  (detect_spoofing_patterns exSchema1 exGraph1 168 1000).headD defaultActivity

/-- The finding the volume-anomaly detector produces on `exGraph10`. -/
def exVolumeActivity : SuspiciousActivity :=
  (detect_volume_anomalies exSchema10 exGraph10 168 1000).headD defaultActivity

/-- Witness for C4's amended statement: a concrete spoofing finding obeys the
bands; a concrete volume-anomaly finding carries `MEDIUM` at score 0.6. -/
theorem C4_severity_bands_witness :
    exSpoofActivity.severity = determine_severity exSpoofActivity.confidence_score
    ∧ (exVolumeActivity.severity = "MEDIUM"
        ∧ exVolumeActivity.confidence_score = 0.6
        ∧ determine_severity exVolumeActivity.confidence_score = "LOW") :=
  ⟨(C4_severity_bands exSchema1 exGraph1 168 1000 exSpoofActivity).1
      (Or.inl (by with_unfolding_all decide)),
   (C4_severity_bands exSchema10 exGraph10 168 1000 exVolumeActivity).2
      (by with_unfolding_all decide)⟩

/-- C10 (implicit): every volume-anomaly finding carries `pattern_type`
LAYERING (the `SuspiciousPatternType` enum has no VOLUME_ANOMALY member) with
fixed confidence 0.6 and fixed severity `MEDIUM`, its activity id is hashed
under the family name `VOLUME_ANOMALY`, and transaction-like labels are
skipped by this family entirely. -/
theorem C10_volume_anomaly_shape :
    (∀ (schema : Schema) (g : Graph) (lookback_hours now : Nat)
       (a : SuspiciousActivity),
       a ∈ detect_volume_anomalies schema g lookback_hours now →
         a.pattern_type = SuspiciousPatternType.LAYERING
         ∧ a.confidence_score = 0.6
         ∧ a.severity = "MEDIUM"
         ∧ a.activity_id =
             generate_deterministic_id "VOLUME_ANOMALY" a.trader_id a.instrument
               a.related_trades
         ∧ strContains (strLower a.instrument) "transaction" = false)
    ∧ (∀ p : SuspiciousPatternType, p.value ≠ "VOLUME_ANOMALY") := by
  constructor
  · intro schema g lookback_hours now a h
    rw [detect_volume_anomalies, List.mem_flatMap] at h
    obtain ⟨label, _, hmem⟩ := h
    obtain ⟨hpat, hconf, hsev, htid, hinstr, hrel, hid, hskip⟩ :=
      volumeActivitiesFor_spec hmem
    rw [Bool.or_eq_false_iff] at hskip
    refine ⟨hpat, hconf, hsev, ?_, ?_⟩
    · rw [hid, htid, hinstr, hrel]
    · rw [hinstr]
      exact hskip.2
  · intro p
    cases p <;> simp [SuspiciousPatternType.value]

/-- Witness for C10 at the concrete volume-anomaly finding of `exGraph10`. -/
theorem C10_volume_anomaly_shape_witness :
    exVolumeActivity.pattern_type = SuspiciousPatternType.LAYERING
    ∧ exVolumeActivity.confidence_score = 0.6
    ∧ exVolumeActivity.severity = "MEDIUM"
    ∧ exVolumeActivity.activity_id =
        generate_deterministic_id "VOLUME_ANOMALY" exVolumeActivity.trader_id
          exVolumeActivity.instrument exVolumeActivity.related_trades
    ∧ strContains (strLower exVolumeActivity.instrument) "transaction" = false :=
  C10_volume_anomaly_shape.1 exSchema10 exGraph10 168 1000 exVolumeActivity
    (by with_unfolding_all decide)

theorem spoofingGroupRow_bound {hasStatus : Bool} {tid : String}
    {txs : List Txn} {row : Row}
    (h : spoofingGroupRow hasStatus tid txs = some row) :
    (flattenItems row.related_items).length ≤ 10 := by
  simp only [spoofingGroupRow] at h
  split at h
  · split at h
    · split at h
      · cases h; exact flatten_take10_length_le _ _
      · exact Option.noConfusion h
    · cases h; exact flatten_take10_length_le _ _
  · exact Option.noConfusion h

theorem spoofingQueryRows_bound {relationship : String} {hasStatus : Bool}
    {g : Graph} {lookback_hours now : Nat} {row : Row}
    (h : row ∈ spoofingQueryRows relationship hasStatus g lookback_hours now) :
    (flattenItems row.related_items).length ≤ 10 := by
  simp only [spoofingQueryRows] at h
  split at h
  · simp only [spoofingEntityRows, List.mem_filterMap] at h
    obtain ⟨tid, -, hr⟩ := h
    exact spoofingGroupRow_bound hr
  · simp only [spoofingSystemRows, Option.mem_toList, Option.mem_def] at h
    exact spoofingGroupRow_bound h

theorem spoofingSimpleRows_bound {hasStatus : Bool} {g : Graph}
    {lookback_hours now : Nat} {row : Row}
    (h : row ∈ spoofingSimpleRows hasStatus g lookback_hours now) :
    (flattenItems row.related_items).length ≤ 10 := by
  simp only [spoofingSimpleRows] at h
  split at h
  · rw [List.mem_singleton] at h
    subst h
    exact flatten_take10_length_le _ _
  · exact absurd h (List.not_mem_nil row)

theorem spoofingTieredRows_bound {schema : Schema} {config : DetectionConfig}
    {g : Graph} {lookback_hours now : Nat} {row : Row}
    (h : row ∈ spoofingTieredRows schema config g lookback_hours now) :
    (flattenItems row.related_items).length ≤ 10 := by
  simp only [spoofingTieredRows] at h
  split at h
  · split at h
    · rename_i rs heq
      have hmem := firstNonEmptyRows_mem heq
      rw [List.mem_map] at hmem
      obtain ⟨rel, -, hrel⟩ := hmem
      rw [← hrel] at h
      exact spoofingQueryRows_bound h
    · exact spoofingSimpleRows_bound h
  · exact spoofingQueryRows_bound h

theorem spoofingRowToActivity_related_le {g : Graph} {config : DetectionConfig}
    {lookback_hours now : Nat} {r : Row} {a : SuspiciousActivity}
    (hrow : (flattenItems r.related_items).length ≤ 10)
    (h : spoofingRowToActivity g config lookback_hours now r = some a) :
    a.related_trades.length ≤ 10 := by
  simp only [spoofingRowToActivity] at h
  split at h
  · cases h
    dsimp only
    split
    · split
      · exact hrow
      · exact List.length_take_le _ _
    · exact hrow
  · exact Option.noConfusion h

theorem layeringRowToActivity_related_le {g : Graph} {now : Nat} {r : Row}
    {a : SuspiciousActivity}
    (hrow : (flattenItems r.related_items).length ≤ 10)
    (h : layeringRowToActivity g now r = some a) :
    a.related_trades.length ≤ 10 := by
  simp only [layeringRowToActivity] at h
  split at h
  · cases h
    exact hrow
  · exact Option.noConfusion h

theorem layeringGroupRow_spec {tid : String} {transactions : List Txn}
    {row : Row}
    (h : layeringGroupRow tid transactions = some row) :
    3 ≤ row.total_items
    ∧ (flattenItems row.related_items).length ≤ 10 := by
  simp only [layeringGroupRow] at h
  split at h
  · split at h
    · split at h
      · rename_i hor
        cases h
        refine ⟨?_, flatten_take10_length_le _ _⟩
        dsimp only
        split
        · rename_i hc
          exact hc
        · rename_i hc
          have hiso : 3 ≤ (transactions.filter (fun t => !txnConnected t)).length := by
            rcases hor with h3 | h3
            · exact absurd h3 hc
            · exact h3
          rw [List.length_take]
          omega
      · exact Option.noConfusion h
    · exact Option.noConfusion h
  · exact Option.noConfusion h

theorem layeringSystemRows_spec {primary_node_properties : List String}
    {g : Graph} {lookback_hours now : Nat} {row : Row}
    (h : row ∈ layeringSystemRows primary_node_properties g lookback_hours now) :
    3 ≤ row.total_items
    ∧ (flattenItems row.related_items).length ≤ 10 := by
  simp only [layeringSystemRows] at h
  split at h
  · split at h
    · rename_i h3
      split at h
      · rw [List.mem_singleton] at h
        subst h
        exact ⟨h3, flatten_take10_length_le _ _⟩
      · exact absurd h (List.not_mem_nil row)
    · exact absurd h (List.not_mem_nil row)
  · split at h
    · rename_i h3
      rw [List.mem_singleton] at h
      subst h
      refine ⟨h3, ?_⟩
      rw [flattenItems_map_str, List.length_map, List.length_take]
      omega
    · exact absurd h (List.not_mem_nil row)

theorem layeringQueryRows_spec {relationship : String}
    {primary_node_properties : List String} {g : Graph}
    {lookback_hours now : Nat} {row : Row}
    (h : row ∈ layeringQueryRows relationship primary_node_properties g
      lookback_hours now) :
    3 ≤ row.total_items
    ∧ (flattenItems row.related_items).length ≤ 10 := by
  simp only [layeringQueryRows] at h
  split at h
  · simp only [layeringEntityRows] at h
    have h' := mem_sortRowsDesc h
    rw [List.mem_filterMap] at h'
    obtain ⟨tid, -, hr⟩ := h'
    exact layeringGroupRow_spec hr
  · exact layeringSystemRows_spec h

theorem layeringSimpleRows_spec {primary_node_properties : List String}
    {g : Graph} {lookback_hours now : Nat} {row : Row}
    (h : row ∈ layeringSimpleRows primary_node_properties g lookback_hours now) :
    3 ≤ row.total_items
    ∧ (flattenItems row.related_items).length ≤ 10 := by
  simp only [layeringSimpleRows] at h
  split at h
  · have h' := mem_sortRowsDesc (List.take_subset _ _ h)
    rw [List.mem_filterMap] at h'
    obtain ⟨k, -, hk⟩ := h'
    split at hk
    · rename_i h3
      cases hk
      exact ⟨h3, flatten_take10_length_le _ _⟩
    · exact Option.noConfusion hk
  · split at h
    · rename_i h3
      rw [List.mem_singleton] at h
      subst h
      refine ⟨h3, ?_⟩
      rw [flattenItems_map_str, List.length_map, List.length_take]
      omega
    · exact absurd h (List.not_mem_nil row)

theorem layeringTieredRows_spec {schema : Schema} {config : DetectionConfig}
    {g : Graph} {lookback_hours now : Nat} {row : Row}
    (h : row ∈ layeringTieredRows schema config g lookback_hours now) :
    3 ≤ row.total_items
    ∧ (flattenItems row.related_items).length ≤ 10 := by
  simp only [layeringTieredRows] at h
  split at h
  · split at h
    · rename_i rs heq
      have hmem := firstNonEmptyRows_mem heq
      rw [List.mem_map] at hmem
      obtain ⟨rel, -, hrel⟩ := hmem
      rw [← hrel] at h
      exact layeringQueryRows_spec h
    · exact layeringSimpleRows_spec h
  · exact layeringQueryRows_spec h

/-- C5: every produced `SuspiciousActivity` (spoofing, layering, volume
anomaly) has at most 10 entries in `related_trades` after the one-level
flattening of nested lists. -/
theorem C5_related_items_bound :
    ∀ (schema : Schema) (g : Graph) (lookback_hours now : Nat)
      (a : SuspiciousActivity),
      (a ∈ detect_spoofing_patterns schema g lookback_hours now
        ∨ a ∈ detect_layering_patterns schema g lookback_hours now
        ∨ a ∈ detect_volume_anomalies schema g lookback_hours now) →
      a.related_trades.length ≤ 10 := by
  intro schema g lookback_hours now a h
  rcases h with h | h | h
  · rw [detect_spoofing_patterns] at h
    split at h
    · exact absurd h (List.not_mem_nil a)
    · rw [List.mem_filterMap] at h
      obtain ⟨r, hr, hconv⟩ := h
      exact spoofingRowToActivity_related_le (spoofingTieredRows_bound hr) hconv
  · rw [detect_layering_patterns] at h
    split at h
    · exact absurd h (List.not_mem_nil a)
    · rw [List.mem_filterMap] at h
      obtain ⟨r, hr, hconv⟩ := h
      exact layeringRowToActivity_related_le (layeringTieredRows_spec hr).2 hconv
  · rw [detect_volume_anomalies, List.mem_flatMap] at h
    obtain ⟨label, -, hmem⟩ := h
    obtain ⟨-, -, -, -, -, hrel, -⟩ := volumeActivitiesFor_spec hmem
    rw [hrel]
    exact Nat.zero_le 10

/-- Witness for C5 at the concrete spoofing finding of `exGraph1`. -/
theorem C5_related_items_bound_witness :
    exSpoofActivity.related_trades.length ≤ 10 :=
  C5_related_items_bound exSchema1 exGraph1 168 1000 exSpoofActivity
    (Or.inl (by with_unfolding_all decide))

/-- C8: every row any layering tier emits describes a group of at least 3
items; a trader group of 1 or 2 transactions yields no layering row; and when
at least 3 transactions of the group sit in a `CONNECTED_TO` chain, that
connected subset is preferred over the unlinked fallback of the first 3. -/
theorem C8_layering_group_size :
    (∀ (schema : Schema) (config : DetectionConfig) (g : Graph)
       (lookback_hours now : Nat) (row : Row),
       row ∈ layeringTieredRows schema config g lookback_hours now →
       3 ≤ row.total_items)
    ∧ (∀ (tid : String) (transactions : List Txn),
        transactions.length ≤ 2 → layeringGroupRow tid transactions = none)
    ∧ (∀ (tid : String) (transactions : List Txn),
        3 ≤ (transactions.filter txnConnected).length →
        ∃ row, layeringGroupRow tid transactions = some row
          ∧ row.total_items = (transactions.filter txnConnected).length
          ∧ row.related_items =
              ((transactions.filter txnConnected).map
                (fun t => Item.str t.txnId)).take 10) := by
  refine ⟨?_, ?_, ?_⟩
  · intro schema config g lookback_hours now row h
    exact (layeringTieredRows_spec h).1
  · intro tid transactions hle
    simp only [layeringGroupRow]
    rw [if_neg (by omega)]
  · intro tid transactions hc
    have hlen : 3 ≤ transactions.length :=
      le_trans hc (List.length_filter_le _ _)
    simp only [layeringGroupRow]
    rw [if_pos hlen, if_pos (by omega : 2 ≤ transactions.length),
      if_pos (Or.inl hc), if_pos hc]
    exact ⟨_, rfl, rfl, rfl⟩

/-- The layering detection config resolved for `exSchema1`. -/
def exConfig8 : DetectionConfig :=
  { primary_node := "Transaction"
    primary_node_properties := ["transaction_id", "timestamp", "status"]
    time_property := some "timestamp"
    status_property := some "status"
    relationship := "PLACED_BY" }

/-- Graph holding trader `T2`'s four transactions. -/
def exGraph8 : Graph :=
  { txns := exGroup8, nodes := [] }

/-- The row the layering tiers produce on `exGraph8`. -/
def exRow8 : Row :=
  (layeringTieredRows exSchema1 exConfig8 exGraph8 168 1000).headD defaultRow

/-- Witness for C8 at concrete inputs: a produced row with group size at
least 3, no row for a two-transaction group, and the connected-chain subset
preferred for `T2`'s group. -/
theorem C8_layering_group_size_witness :
    3 ≤ exRow8.total_items
    ∧ layeringGroupRow "T2" (exGroup8.take 2) = none
    ∧ (∃ row, layeringGroupRow "T2" exGroup8 = some row
        ∧ row.total_items = (exGroup8.filter txnConnected).length
        ∧ row.related_items =
            ((exGroup8.filter txnConnected).map
              (fun t => Item.str t.txnId)).take 10) :=
  ⟨C8_layering_group_size.1 exSchema1 exConfig8 exGraph8 168 1000 exRow8
      (by decide),
   C8_layering_group_size.2.1 "T2" (exGroup8.take 2) (by decide),
   C8_layering_group_size.2.2 "T2" exGroup8 (by decide)⟩
